import Mathlib

/-!
Shallow embedding of `src/main.c` (SpiceGTK tutorial).

The program is event driven: `activate` builds the main window, wires
`onClose` to the window's destroy signal, creates a spice session, wires
`newChannel` to its channel-new signal, sets the fixed connection uri and
calls `spice_session_connect`.  Afterwards GTK delivers external events:
channel-new notifications run `newChannel`; channel events run
`channelEvent`, but only on channels where `newChannel` connected that
handler (type 1, Main); the user closing the window fires destroy, which
runs `onClose`.

The embedding keeps the observable effects of every C statement as fields
of `ProgState` and models the spice library's own session state with the
minimal transitions the program can observe: `spice_session_connect`
starts Connecting, a successful Main-channel open makes the session
Connected, `spice_session_disconnect` drives it to the terminal
Disconnected state.
-/

/-- Session state of the underlying spice library session, as far as this
program interacts with it. -/
inductive SessionState where
  | idle
  | connecting
  | connected
  | disconnected
  deriving DecidableEq

/-- Channel event values from the spice client library. `channelEvent`
(main.c line 13) compares the delivered value against
SPICE_CHANNEL_ERROR_CONNECT only; the remaining constructors cover the
other members of the SpiceChannelEvent enum (opened, switching, closed and
the TLS / link / auth / input-output error kinds). -/
inductive SpiceChannelEvent where
  | opened
  | switching
  | closed
  | errorConnect
  | errorTLS
  | errorLink
  | errorAuth
  | ioError
  deriving DecidableEq

/-- Observable state of main.c: the global window and session handles
(lines 4-5) together with the cumulative side effects of the handlers. -/
structure ProgState where
  /-- state of the global spiceSession object (line 5) -/
  session : SessionState
  /-- value of the uri property set on the session (lines 53-57) -/
  uri : Option String
  /-- target used by the last spice_session_connect call (line 58) -/
  connectTarget : Option String
  /-- channels (channel-type, channel-id) on which newChannel connected the
  channelEvent handler (line 25) -/
  attachedChannels : List (Int × Int)
  /-- channel ids of the SpiceDisplay widgets created and added to the main
  window (lines 29-32), in creation order -/
  displays : List Int
  /-- number of USB-redirection windows and widgets created (lines 34-38) -/
  usbWidgets : Nat
  /-- whether the destroy signal has fired on the main window -/
  windowDestroyed : Bool
  /-- number of spice_session_disconnect calls (line 9) -/
  disconnectCalls : Nat
  /-- channel types printed by the printf in newChannel (line 22) -/
  typeLog : List Int
  /-- number of times channelEvent printed its diagnostic (line 14) -/
  connectErrorPrints : Nat
  deriving DecidableEq

/-- spice_session_disconnect (called at main.c line 9): tears the session
down to the terminal Disconnected state. -/
def spice_session_disconnect (s : ProgState) : ProgState :=
  { s with session := .disconnected, disconnectCalls := s.disconnectCalls + 1 }

/-- onClose (main.c lines 8-10): the handler wired to the main window's
destroy signal (line 47); it disconnects the spice session. -/
def onClose (s : ProgState) : ProgState :=
  spice_session_disconnect s

/-- Destroying the main window — whether the user closes it or
channelEvent emits the destroy signal (line 15) — runs the connected
onClose handler. -/
def emitDestroy (s : ProgState) : ProgState :=
  onClose { s with windowDestroyed := true }

/-- channelEvent (main.c lines 12-17): on SPICE_CHANNEL_ERROR_CONNECT it
prints a diagnostic and emits destroy on the main window; every other
event value falls through the if and does nothing. -/
def channelEvent (event : SpiceChannelEvent) (s : ProgState) : ProgState :=
  if event = .errorConnect then
    emitDestroy { s with connectErrorPrints := s.connectErrorPrints + 1 }
  else
    s

/-- newChannel (main.c lines 19-40): reads the channel-type property and
prints it; for type 1 (Main) it connects channelEvent to the channel's
channel-event signal; for type 2 (Display) it reads the channel-id,
creates a SpiceDisplay widget, adds it to the main window and shows it,
then unconditionally creates a fresh USB-redirection window with a
spice_usb_device_widget and shows it; any other channel type gets nothing
beyond the printf. -/
def newChannel (channelType channelId : Int) (s : ProgState) : ProgState :=
  let s0 := { s with typeLog := s.typeLog ++ [channelType] }
  if channelType = 1 then
    { s0 with attachedChannels := s0.attachedChannels ++ [(channelType, channelId)] }
  else if channelType = 2 then
    { s0 with displays := s0.displays ++ [channelId],
              usbWidgets := s0.usbWidgets + 1 }
  else
    s0

/-- External stimuli delivered to the program after activate: a
channel-new notification, a channel event delivered on a given channel,
or the user destroying the main window. -/
inductive Event where
  | channelNew (channelType channelId : Int)
  | channelEvt (channelType channelId : Int) (event : SpiceChannelEvent)
  | userClose
  deriving DecidableEq

/-- Library-internal session-state transition accompanying a channel
event: the session becomes Connected when the Main channel (type 1)
reports a successful open while the session is still Connecting.  The
glue code never reads this state; it is the spice library's own
bookkeeping, modelled so that session-level claims can be stated. -/
def sessionUpdate (channelType : Int) (event : SpiceChannelEvent)
    (st : SessionState) : SessionState :=
  if channelType = 1 ∧ event = .opened ∧ st = .connecting then .connected else st

/-- One event delivery: channel-new runs newChannel (wired at line 51); a
channel event first applies the library's session bookkeeping, then runs
channelEvent only on channels where that handler was connected (line 25);
the user closing the window emits destroy, which runs onClose (line 47). -/
def step (s : ProgState) (e : Event) : ProgState :=
  match e with
  | .channelNew t i => newChannel t i s
  | .channelEvt t i ev =>
      let s1 := { s with session := sessionUpdate t ev s.session }
      if (t, i) ∈ s1.attachedChannels then channelEvent ev s1 else s1
  | .userClose => emitDestroy s

/-- Deliver a list of events in order (GTK's serial main loop). -/
def runEvents (s : ProgState) (es : List Event) : ProgState :=
  es.foldl step s

/-- The state before activate runs: nothing created yet. -/
def initState : ProgState :=
  { session := .idle, uri := none, connectTarget := none,
    attachedChannels := [], displays := [], usbWidgets := 0,
    windowDestroyed := false, disconnectCalls := 0,
    typeLog := [], connectErrorPrints := 0 }

/-- spice_session_connect (main.c line 58): starts connecting to whatever
uri property is set on the session. -/
def spice_session_connect (s : ProgState) : ProgState :=
  { s with session := .connecting, connectTarget := s.uri }

/-- activate (main.c lines 43-59): builds the window, wires onClose to its
destroy signal, creates the session, wires newChannel to channel-new, sets
the session's uri property to the fixed static string and connects. -/
def activate (s : ProgState) : ProgState :=
  spice_session_connect { s with uri := some "spice://localhost?port=5900" }

/-- main (main.c lines 61-71): g_application_run receives argc and argv,
but the activate handler takes no data from them, so the state produced by
running the program is the same for every argument list. -/
def mainRun (_argv : List String) : ProgState :=
  activate initState

/-- Projection of the state onto the fields the glue code itself owns and
mutates — everything except the spice library's internal session state. -/
def progView (s : ProgState) :
    Option String × Option String × List (Int × Int) × List Int × Nat ×
    Bool × Nat × List Int × Nat :=
  (s.uri, s.connectTarget, s.attachedChannels, s.displays, s.usbWidgets,
   s.windowDestroyed, s.disconnectCalls, s.typeLog, s.connectErrorPrints)

/-- State reached after activate followed by a Main (type 1) channel-new:
the channelEvent handler is attached to channel (1, 0). -/
def mainAttachedState : ProgState :=
  runEvents (mainRun []) [.channelNew 1 0]

/-- State reached after activate, a Main channel-new and a successful Main
channel open: the session is Connected with channelEvent attached. -/
def connectedState : ProgState :=
  runEvents (mainRun []) [.channelNew 1 0, .channelEvt 1 0 .opened]

/-! ## Helper lemmas -/

/-- newChannel never touches the session, the window-destroyed flag or the
connect target: it only logs, attaches a handler or creates widgets. -/
theorem newChannel_fields (t i : Int) (s : ProgState) :
    (newChannel t i s).session = s.session ∧
    (newChannel t i s).windowDestroyed = s.windowDestroyed ∧
    (newChannel t i s).connectTarget = s.connectTarget := by
  unfold newChannel
  dsimp only
  split_ifs <;> exact ⟨rfl, rfl, rfl⟩

/-- channelEvent ignores every event value other than
SPICE_CHANNEL_ERROR_CONNECT. -/
theorem channelEvent_noop (ev : SpiceChannelEvent) (s : ProgState)
    (h : ev ≠ .errorConnect) : channelEvent ev s = s := by
  unfold channelEvent
  rw [if_neg h]

/-- A disconnected session stays disconnected under every event: the
program never calls spice_session_connect again, and the library only
promotes Connecting to Connected. -/
theorem step_session_disconnected (s : ProgState) (e : Event)
    (h : s.session = .disconnected) : (step s e).session = .disconnected := by
  cases e with
  | channelNew t i =>
      rw [show step s (.channelNew t i) = newChannel t i s from rfl,
        (newChannel_fields t i s).1, h]
  | channelEvt t i ev =>
      have hup : sessionUpdate t ev s.session = .disconnected := by
        simp [sessionUpdate, h]
      simp only [step]
      split_ifs with hm
      · by_cases hev : ev = .errorConnect
        · subst hev
          simp [channelEvent, emitDestroy, onClose, spice_session_disconnect]
        · rw [channelEvent_noop ev _ hev]
          simpa using hup
      · simpa using hup
  | userClose => rfl

/-- Disconnected is absorbing along any event trace. -/
theorem runEvents_session_disconnected (s : ProgState) (es : List Event)
    (h : s.session = .disconnected) :
    (runEvents s es).session = .disconnected := by
  induction es generalizing s with
  | nil => exact h
  | cons e es ih =>
      exact ih (step s e) (step_session_disconnected s e h)

/-- No event ever changes the target passed to spice_session_connect:
connect is called once, in activate. -/
theorem step_connectTarget (s : ProgState) (e : Event) :
    (step s e).connectTarget = s.connectTarget := by
  cases e with
  | channelNew t i => exact (newChannel_fields t i s).2.2
  | channelEvt t i ev =>
      simp only [step]
      split_ifs with hm
      · unfold channelEvent
        split_ifs <;> rfl
      · rfl
  | userClose => rfl

/-- The connect target is invariant along any event trace. -/
theorem runEvents_connectTarget (s : ProgState) (es : List Event) :
    (runEvents s es).connectTarget = s.connectTarget := by
  induction es generalizing s with
  | nil => rfl
  | cons e es ih =>
      exact ((ih (step s e)).trans (step_connectTarget s e))

/-! ## Claim theorems -/

/-- Claim C1: when a SPICE_CHANNEL_ERROR_CONNECT event is delivered on a
Main channel (one where channelEvent was attached), the program emits
destroy on the window, onClose runs and calls spice_session_disconnect:
the session is Disconnected immediately after the event and no later event
trace can ever make it Connected. -/
theorem connect_error_tears_down (s : ProgState) (i : Int)
    (h : (1, i) ∈ s.attachedChannels) :
    (step s (.channelEvt 1 i .errorConnect)).session = .disconnected ∧
    (step s (.channelEvt 1 i .errorConnect)).disconnectCalls
      = s.disconnectCalls + 1 ∧
    ∀ es : List Event,
      (runEvents (step s (.channelEvt 1 i .errorConnect)) es).session
        ≠ .connected := by
  have h1 : (step s (.channelEvt 1 i .errorConnect)).session = .disconnected := by
    simp [step, sessionUpdate, h, channelEvent, emitDestroy, onClose,
      spice_session_disconnect]
  refine ⟨h1, ?_, ?_⟩
  · simp [step, sessionUpdate, h, channelEvent, emitDestroy, onClose,
      spice_session_disconnect]
  · intro es
    rw [runEvents_session_disconnected _ es h1]
    decide

/-- Witness for connect_error_tears_down: after activate and a Main
channel-new, channel (1, 0) has the handler attached; delivering the
connect error there disconnects, and even a later successful-open event
cannot reach Connected. -/
theorem connect_error_tears_down_witness :
    (step mainAttachedState (.channelEvt 1 0 .errorConnect)).session
      = .disconnected ∧
    (step mainAttachedState (.channelEvt 1 0 .errorConnect)).disconnectCalls
      = mainAttachedState.disconnectCalls + 1 ∧
    (runEvents (step mainAttachedState (.channelEvt 1 0 .errorConnect))
        [.channelEvt 1 0 .opened]).session ≠ .connected :=
  ⟨(connect_error_tears_down mainAttachedState 0 (by decide)).1,
   (connect_error_tears_down mainAttachedState 0 (by decide)).2.1,
   (connect_error_tears_down mainAttachedState 0 (by decide)).2.2
     [.channelEvt 1 0 .opened]⟩

/-- Claim C2 (refuted, code bug): the USB-redirection widget is created
inside the Display branch of newChannel, once per Display (type 2)
channel-new event and never in response to a device-redirection
(SPICE_CHANNEL_USBREDIR, raw type 9) event: two display events yield two
widgets, while a single device-redirection event yields none. -/
theorem usb_widget_per_display_event :
    (runEvents (mainRun []) [.channelNew 2 0, .channelNew 2 1]).usbWidgets = 2 ∧
    (runEvents (mainRun []) [.channelNew 2 0]).usbWidgets = 1 ∧
    (runEvents (mainRun []) [.channelNew 9 0]).usbWidgets = 0 :=
  ⟨rfl, rfl, rfl⟩

/-- Claim C3 (refuted, code bug): there is no channel registry and no
duplicate check: two channel-new events for the same (Display, id 0) pair
create two display widgets, both kept, with no DuplicateChannel failure. -/
theorem duplicate_display_registration_kept :
    (runEvents (mainRun []) [.channelNew 2 0, .channelNew 2 0]).displays
      = [0, 0] ∧
    (runEvents (mainRun []) [.channelNew 2 0, .channelNew 2 0]).usbWidgets = 2 :=
  ⟨rfl, rfl⟩

/-- Claim C4: a channel-new notification whose channel-type is neither 1
(Main) nor 2 (Display) falls through both branches of newChannel: the only
effect is the diagnostic printf of the channel type; nothing fails and no
other field of the program state changes. -/
theorem unknown_channel_type_ignored (s : ProgState) (t i : Int)
    (h1 : t ≠ 1) (h2 : t ≠ 2) :
    newChannel t i s = { s with typeLog := s.typeLog ++ [t] } := by
  unfold newChannel
  dsimp only
  rw [if_neg h1, if_neg h2]

/-- Witness for unknown_channel_type_ignored at raw channel type 9
(SPICE_CHANNEL_USBREDIR) on the post-activate state. -/
theorem unknown_channel_type_ignored_witness :
    newChannel 9 0 (mainRun [])
      = { mainRun [] with typeLog := (mainRun []).typeLog ++ [9] } :=
  unknown_channel_type_ignored (mainRun []) 9 0 (by decide) (by decide)

/-- Claim C5 (refuted, code bug): a channel-close event on a Display
channel is ignored entirely: channelEvent is never attached to type 2
channels, so delivering the closed event after a Display channel-new with
id 2 leaves the whole program state unchanged — the display widget stays
registered and no detach or disposal action ever happens. -/
theorem display_close_ignored :
    step (runEvents (mainRun []) [.channelNew 2 2]) (.channelEvt 2 2 .closed)
      = runEvents (mainRun []) [.channelNew 2 2] ∧
    (runEvents (mainRun [])
        [.channelNew 2 2, .channelEvt 2 2 .closed]).displays = [2] :=
  ⟨rfl, rfl⟩

/-- Claim C6 (refuted, code bug): there is no buffering of channel-new
events: directly after activate the session is still Connecting, yet a
Display channel-new is acted on immediately — the display widget is
created and added while the session has never been Connected. -/
theorem display_event_not_buffered :
    (mainRun []).session = .connecting ∧
    (runEvents (mainRun []) [.channelNew 2 0]).session = .connecting ∧
    (runEvents (mainRun []) [.channelNew 2 0]).displays = [0] ∧
    (runEvents (mainRun []) [.channelNew 2 0]).usbWidgets = 1 :=
  ⟨rfl, rfl, rfl, rfl⟩

/-- Claim C7 counterexample: with the session Connected and the Main
channel handler attached, a SPICE_CHANNEL_ERROR_IO event — a fatal,
connection-level error kind — leaves the program state completely
unchanged: no teardown, no disconnect, contrary to the claim that every
fatal channel error triggers teardown. -/
theorem fatal_io_error_ignored :
    connectedState.session = .connected ∧
    step connectedState (.channelEvt 1 0 .ioError) = connectedState :=
  ⟨rfl, rfl⟩

/-- Claim C7 (amended): in the Connected state, only a
SPICE_CHANNEL_ERROR_CONNECT event delivered on a channel with the
channelEvent handler attached (a Main channel) triggers teardown — destroy
plus spice_session_disconnect; every other channel event, including the
other connection-level error kinds and any event on a channel without the
handler, leaves the state entirely unchanged. -/
theorem connected_error_routing (s : ProgState) (t i : Int)
    (ev : SpiceChannelEvent) (hs : s.session = .connected) :
    (ev ≠ .errorConnect ∨ (t, i) ∉ s.attachedChannels →
        step s (.channelEvt t i ev) = s) ∧
    (ev = .errorConnect → (t, i) ∈ s.attachedChannels →
        (step s (.channelEvt t i ev)).session = .disconnected ∧
        (step s (.channelEvt t i ev)).disconnectCalls
          = s.disconnectCalls + 1) := by
  have hup : sessionUpdate t ev s.session = s.session := by
    simp [sessionUpdate, hs]
  have hstep : step s (.channelEvt t i ev)
      = if (t, i) ∈ s.attachedChannels then channelEvent ev s else s := by
    simp only [step]
    rw [hup]
  constructor
  · intro hcase
    rw [hstep]
    rcases hcase with hev | hmem
    · split_ifs with hm
      · exact channelEvent_noop ev s hev
      · rfl
    · rw [if_neg hmem]
  · intro hev hmem
    subst hev
    rw [hstep, if_pos hmem]
    exact ⟨rfl, rfl⟩

/-- Witness for connected_error_routing at the concrete Connected state: a
closed event on the attached Main channel is a no-op, while a connect
error there disconnects and bumps the disconnect counter. -/
theorem connected_error_routing_witness :
    step connectedState (.channelEvt 1 0 .closed) = connectedState ∧
    (step connectedState (.channelEvt 1 0 .errorConnect)).session
      = .disconnected ∧
    (step connectedState (.channelEvt 1 0 .errorConnect)).disconnectCalls
      = connectedState.disconnectCalls + 1 :=
  ⟨(connected_error_routing connectedState 1 0 .closed rfl).1
     (Or.inl (by decide)),
   ((connected_error_routing connectedState 1 0 .errorConnect rfl).2
     rfl (by decide)).1,
   ((connected_error_routing connectedState 1 0 .errorConnect rfl).2
     rfl (by decide)).2⟩

/-- Claim C8: whatever command-line arguments the program is started with,
activate sets the session uri to the fixed static string and connects to
it, and no later event ever changes the connect target: the only target
the program can ever connect to is spice://localhost?port=5900. -/
theorem fixed_connection_target (argv : List String) (es : List Event) :
    (mainRun argv).connectTarget = some "spice://localhost?port=5900" ∧
    (runEvents (mainRun argv) es).connectTarget
      = some "spice://localhost?port=5900" := by
  refine ⟨rfl, ?_⟩
  rw [runEvents_connectTarget]
  rfl

/-- Claim C9: newChannel attaches the channelEvent handler exactly to
type 1 (Main) channels; a channel event whose value is not the connect
error changes none of the program-owned fields; and when only Main
channels carry the handler, a channel event on a non-Main channel changes
none of the program-owned fields either. -/
theorem main_only_event_wiring (s : ProgState) (t i : Int)
    (ev : SpiceChannelEvent) :
    ((newChannel t i s).attachedChannels
        = if t = 1 then s.attachedChannels ++ [(t, i)]
          else s.attachedChannels) ∧
    (ev ≠ .errorConnect →
        progView (step s (.channelEvt t i ev)) = progView s) ∧
    ((∀ p ∈ s.attachedChannels, p.1 = 1) → t ≠ 1 →
        progView (step s (.channelEvt t i ev)) = progView s) := by
  refine ⟨?_, ?_, ?_⟩
  · unfold newChannel
    dsimp only
    split_ifs <;> rfl
  · intro hev
    simp only [step]
    split_ifs with hm
    · rw [channelEvent_noop ev _ hev]
      rfl
    · rfl
  · intro hall ht
    simp only [step]
    split_ifs with hm
    · exact absurd (hall _ hm) ht
    · rfl

/-- Witness for main_only_event_wiring on the post-activate state with the
Main channel attached: a Display channel-new does not attach the handler,
an opened event on the Main channel changes no program-owned field, and a
closed event on a non-Main channel changes no program-owned field. -/
theorem main_only_event_wiring_witness :
    ((newChannel 2 5 mainAttachedState).attachedChannels
        = if (2 : Int) = 1 then mainAttachedState.attachedChannels ++ [(2, 5)]
          else mainAttachedState.attachedChannels) ∧
    progView (step mainAttachedState (.channelEvt 1 0 .opened))
      = progView mainAttachedState ∧
    progView (step mainAttachedState (.channelEvt 2 5 .closed))
      = progView mainAttachedState :=
  ⟨(main_only_event_wiring mainAttachedState 2 5 .closed).1,
   (main_only_event_wiring mainAttachedState 1 0 .opened).2.1 (by decide),
   (main_only_event_wiring mainAttachedState 2 5 .closed).2.2
     (by decide) (by decide)⟩

/-- Claim C10: every step that newly destroys the main window — the user
closing it or channelEvent emitting destroy on a connect error — runs the
onClose handler, so spice_session_disconnect is called in that same step
and the session ends Disconnected. -/
theorem window_destroy_disconnects (s : ProgState) (e : Event)
    (h1 : (step s e).windowDestroyed = true)
    (h2 : s.windowDestroyed = false) :
    (step s e).disconnectCalls = s.disconnectCalls + 1 ∧
    (step s e).session = .disconnected := by
  cases e with
  | channelNew t i =>
      exfalso
      have h3 : (newChannel t i s).windowDestroyed = true := h1
      rw [(newChannel_fields t i s).2.1, h2] at h3
      exact Bool.noConfusion h3
  | channelEvt t i ev =>
      simp only [step] at h1 ⊢
      split_ifs at h1 ⊢ with hm
      · by_cases hev : ev = .errorConnect
        · subst hev
          simp [channelEvent, emitDestroy, onClose, spice_session_disconnect]
        · rw [channelEvent_noop ev _ hev] at h1
          have h3 : s.windowDestroyed = true := h1
          rw [h2] at h3
          exact Bool.noConfusion h3
      · have h3 : s.windowDestroyed = true := h1
        rw [h2] at h3
        exact Bool.noConfusion h3
  | userClose => exact ⟨rfl, rfl⟩

/-- Witness for window_destroy_disconnects: the user closing the window
right after activate destroys it and triggers exactly one disconnect. -/
theorem window_destroy_disconnects_witness :
    (step (mainRun []) .userClose).disconnectCalls
      = (mainRun []).disconnectCalls + 1 ∧
    (step (mainRun []) .userClose).session = .disconnected :=
  window_destroy_disconnects (mainRun []) .userClose (by decide) (by decide)
